import Mathlib

/-!
Verification of the RDS exporter (`rds.go`) of aws-resource-exporter.

Shallow embedding of the source:

* `DBMaxConnections` embeds the hardcoded Go map
  `map[string]map[string]int64` as an association list (the Go map has
  distinct keys, so first-match lookup agrees with map lookup).
* `DBInstance` is the read-only view of an AWS `rds.DBInstance` that
  `Collect` consults; pointer fields are modelled by their values and the
  `LatestRestorableTime` timestamp by its Unix-epoch seconds (the only
  form the code uses, via `.Unix()`).
* A Prometheus `MustNewConstMetric` observation is a `Metric` record:
  descriptor identity (`MetricName`), value type, numeric value and the
  ordered label values.  Every float64 value the code emits is an
  integer that float64 represents exactly (0/1 flags, table entries,
  Unix seconds, and `AllocatedStorage*1024^3` which after int64
  wrap-around is a multiple of 2^30 with at most 34 significant bits),
  so values are modelled as `Int`.
* Go's int64 arithmetic wraps on overflow (defined behaviour); `int64wrap`
  makes that explicit for the one multiplication that can overflow.
* The per-instance body of `Collect`'s second loop is `processInstance`.
  The unchecked index `instance.DBParameterGroups[0]` (reached only in
  the branch where the instance class is a key of the table) is a
  run-time panic when the list is empty; `processInstance` returns
  `none` exactly there.
* The pagination loop is `describeLoop`, driven by a finite script of
  API responses (`ApiResponse`): one entry per `DescribeDBInstances`
  call, either an error or a page of instances plus an optional
  continuation marker.  The loop records the marker passed on each call.
  `exporterMetrics.IncrementRequests` / `IncrementErrors` are defined
  outside this file; modelled from the spec: two process-wide counters,
  each call adds one (requests before every call, errors on every failed
  call), tallied in `CollectRun.requests` / `CollectRun.errors`.
* `RDSExporter.Collect` / `RDSExporter.Describe` thread the exporter
  record and the table explicitly, so frame (non-mutation) claims are
  statements about the returned state.
-/

/-- DBParameterGroupStatus: the one field of the AWS record that
`Collect` reads (`DBParameterGroupName`, a string behind a pointer). -/
structure DBParameterGroupStatus where
  dbParameterGroupName : String
deriving DecidableEq, Repr

/-- DBInstance: the fields of `rds.DBInstance` that `Collect` reads.
`allocatedStorage` is the int64 GiB figure; `latestRestorableTimeUnix`
is `LatestRestorableTime.Unix()` (int64 seconds). -/
structure DBInstance where
  dbInstanceIdentifier : String
  dbInstanceClass : String
  allocatedStorage : Int
  storageEncrypted : Bool
  publiclyAccessible : Bool
  dbInstanceStatus : String
  engine : String
  engineVersion : String
  latestRestorableTimeUnix : Int
  dbParameterGroups : List DBParameterGroupStatus
deriving DecidableEq, Repr

/-- ConnTable: the type of the two-level max-connections table
(`map[string]map[string]int64` as nested association lists). -/
def ConnTable : Type := List (String × List (String × Int))

/-- DBMaxConnections: the hardcoded map of instance types and DB
Parameter Group names from `rds.go`. -/
def DBMaxConnections : ConnTable :=
  [ ("db.t2.small",
      [ ("default", 150),
        ("default.mysql5.7", 150) ]),
    ("db.m5.2xlarge",
      [ ("default", 3429),
        ("default.postgres10", 3429),
        ("default.postgres11", 3429) ]),
    ("db.m5.large",
      [ ("default", 823),
        ("default.postgres10", 823),
        ("default.postgres11", 823) ]) ]

/-- MetricName: identity of one of the nine Prometheus descriptors the
exporter owns (the `rds_*` metric family each `prometheus.Desc` names). -/
inductive MetricName where
  | allocatedStorage
  | dbInstanceClass
  | dbInstanceStatus
  | engineVersion
  | latestRestorableTime
  | maxConnections
  | maxConnectionsMappingError
  | publiclyAccessible
  | storageEncrypted
deriving DecidableEq, Repr

/-- ValueType: `prometheus.GaugeValue` / `prometheus.CounterValue`. -/
inductive ValueType where
  | gaugeValue
  | counterValue
deriving DecidableEq, Repr

instance : BEq MetricName := ⟨fun a b => decide (a = b)⟩

/-- Metric: one `prometheus.MustNewConstMetric` observation sent to the
collect channel: descriptor, value type, value, label values in order. -/
structure Metric where
  name : MetricName
  valueType : ValueType
  value : Int
  labelValues : List String
deriving DecidableEq, Repr

/-- int64wrap: two's-complement wrap-around of Go int64 arithmetic. -/
def int64wrap (x : Int) : Int :=
  (x + 9223372036854775808) % 18446744073709551616 - 9223372036854775808

/-- mappingErrorMetric: the `rds_maxconnections_error` observation, a
gauge labelled (region, identifier, class) with value `e` (0 or 1). -/
def mappingErrorMetric (region : String) (inst : DBInstance) (e : Int) : Metric :=
  { name := MetricName.maxConnectionsMappingError
    valueType := ValueType.gaugeValue
    value := e
    labelValues := [region, inst.dbInstanceIdentifier, inst.dbInstanceClass] }

/-- instanceCommonMetrics: the eight observations `Collect` emits for an
instance after the mapping-error gauge, in source order:
publicly-accessible, storage-encrypted, max-connections (the local
`maxConnections` variable `v`), allocated storage
(`float64(*instance.AllocatedStorage*1024*1024*1024)`, int64 wrap made
explicit), status, engine version, instance class, latest restorable
time (a CounterValue of Unix seconds). -/
def instanceCommonMetrics (region : String) (inst : DBInstance) (v : Int) : List Metric :=
  [ { name := MetricName.publiclyAccessible
      valueType := ValueType.gaugeValue
      value := if inst.publiclyAccessible then 1 else 0
      labelValues := [region, inst.dbInstanceIdentifier] },
    { name := MetricName.storageEncrypted
      valueType := ValueType.gaugeValue
      value := if inst.storageEncrypted then 1 else 0
      labelValues := [region, inst.dbInstanceIdentifier] },
    { name := MetricName.maxConnections
      valueType := ValueType.gaugeValue
      value := v
      labelValues := [region, inst.dbInstanceIdentifier] },
    { name := MetricName.allocatedStorage
      valueType := ValueType.gaugeValue
      value := int64wrap (inst.allocatedStorage * 1024 * 1024 * 1024)
      labelValues := [region, inst.dbInstanceIdentifier] },
    { name := MetricName.dbInstanceStatus
      valueType := ValueType.gaugeValue
      value := 1
      labelValues := [region, inst.dbInstanceIdentifier, inst.dbInstanceStatus] },
    { name := MetricName.engineVersion
      valueType := ValueType.gaugeValue
      value := 1
      labelValues := [region, inst.dbInstanceIdentifier, inst.engine, inst.engineVersion] },
    { name := MetricName.dbInstanceClass
      valueType := ValueType.gaugeValue
      value := 1
      labelValues := [region, inst.dbInstanceIdentifier, inst.dbInstanceClass] },
    { name := MetricName.latestRestorableTime
      valueType := ValueType.counterValue
      value := inst.latestRestorableTimeUnix
      labelValues := [region, inst.dbInstanceIdentifier] } ]

/-- processInstance: the body of `Collect`'s per-instance loop.  First
the instance class is looked up in the table; only in the hit branch is
`instance.DBParameterGroups[0]` read, which panics (modelled `none`)
when the list is empty.  A miss at either level leaves the local
`maxConnections` at 0 and emits the mapping-error gauge at 1; a hit
emits it at 0 and takes the table's value. -/
def processInstance (tbl : ConnTable) (region : String) (inst : DBInstance) :
    Option (List Metric) :=
  match List.lookup inst.dbInstanceClass tbl with
  | none =>
      some (mappingErrorMetric region inst 1 :: instanceCommonMetrics region inst 0)
  | some groupTable =>
      match inst.dbParameterGroups with
      | [] => none
      | g :: _ =>
          match List.lookup g.dbParameterGroupName groupTable with
          | some v =>
              some (mappingErrorMetric region inst 0 :: instanceCommonMetrics region inst v)
          | none =>
              some (mappingErrorMetric region inst 1 :: instanceCommonMetrics region inst 0)

/-- processAll: `Collect`'s second loop over all accumulated instances,
in API order; `none` if any instance panics. -/
def processAll (tbl : ConnTable) (region : String) : List DBInstance → Option (List Metric)
  | [] => some []
  | inst :: rest =>
      match processInstance tbl region inst, processAll tbl region rest with
      | some ms, some tail => some (ms ++ tail)
      | _, _ => none

/-- lookupFirstGroup: the table entry for (instance class, name of the
first parameter group), `none` on a miss at either level or when the
instance has no parameter groups.  Used to state lookup-outcome claims. -/
def lookupFirstGroup (tbl : ConnTable) (inst : DBInstance) : Option Int :=
  match inst.dbParameterGroups with
  | [] => none
  | g :: _ =>
      match List.lookup inst.dbInstanceClass tbl with
      | none => none
      | some groupTable => List.lookup g.dbParameterGroupName groupTable

/-- metricValuesFor: the values of all observations for one metric name,
in emission order. -/
def metricValuesFor (n : MetricName) (ms : List Metric) : List Int :=
  (ms.filter (fun m => m.name == n)).map (fun m => m.value)

/-- ApiResponse: what one `svc.DescribeDBInstances(input)` call returns:
an error, or a page of instances with an optional continuation marker. -/
inductive ApiResponse where
  | err : ApiResponse
  | ok (dbInstances : List DBInstance) (marker : Option String) : ApiResponse
deriving DecidableEq, Repr

/-- FetchResult: outcome of the pagination loop: the accumulated
instances, or abandonment after a failed call, or `noResponse` when the
finite response script ran out while the loop still wanted another call
(the script was too short to decide the poll). -/
inductive FetchResult where
  | success (instances : List DBInstance)
  | failure
  | noResponse
deriving DecidableEq, Repr

/-- describeLoop: the `for` loop of `Collect`.  `marker` is
`input.Marker` for the next call (initially nil); the returned triple is
(the marker passed on each call in order, the number of error-counter
increments, the fetch outcome).  On success the call's page is appended
before the marker test; a nil marker breaks the loop; an error abandons
the poll after one error increment. -/
def describeLoop : Option String → List ApiResponse → List (Option String) × Nat × FetchResult
  | _, [] => ([], 0, FetchResult.noResponse)
  | marker, ApiResponse.err :: _ => ([marker], 1, FetchResult.failure)
  | marker, ApiResponse.ok insts none :: _ => ([marker], 0, FetchResult.success insts)
  | marker, ApiResponse.ok insts (some m) :: rest =>
      let r := describeLoop (some m) rest
      (marker :: r.1, r.2.1,
        match r.2.2 with
        | FetchResult.success tail => FetchResult.success (insts ++ tail)
        | other => other)

/-- CollectOutcome: how one `Collect` call ends: the full metric list
emitted, or the poll aborted on an API error (zero observations), or a
panic from the unchecked parameter-group index, or an undecided script. -/
inductive CollectOutcome where
  | emitted (metrics : List Metric)
  | aborted
  | panicked
  | noScript
deriving DecidableEq, Repr

/-- emitOutcome: emission after a successful fetch: process every
accumulated instance, panicking if any instance does. -/
def emitOutcome (tbl : ConnTable) (region : String) (insts : List DBInstance) : CollectOutcome :=
  match processAll tbl region insts with
  | some ms => CollectOutcome.emitted ms
  | none => CollectOutcome.panicked

/-- CollectRun: observable effects of one `Collect` call: request
counter increments (one per call attempted), error counter increments,
the marker passed on each call, and the outcome. -/
structure CollectRun where
  requests : Nat
  errors : Nat
  callMarkers : List (Option String)
  outcome : CollectOutcome
deriving DecidableEq, Repr

/-- collectRun: one `Collect` call against a response script:
accumulate all pages first (describeLoop), then — only if every call
succeeded — process instances and emit. -/
def collectRun (tbl : ConnTable) (region : String) (script : List ApiResponse) : CollectRun :=
  let r := describeLoop none script
  { requests := r.1.length
    errors := r.2.1
    callMarkers := r.1
    outcome :=
      match r.2.2 with
      | FetchResult.success insts => emitOutcome tbl region insts
      | FetchResult.failure => CollectOutcome.aborted
      | FetchResult.noResponse => CollectOutcome.noScript }

/-- emittedMetrics: the observations a run wrote to the channel (empty
unless the poll completed). -/
def emittedMetrics (run : CollectRun) : List Metric :=
  match run.outcome with
  | CollectOutcome.emitted ms => ms
  | _ => []

/-- Desc: a `prometheus.Desc` as built by `NewRDSExporter`: metric
identity, help string, variable label names. -/
structure Desc where
  metric : MetricName
  help : String
  variableLabels : List String
deriving DecidableEq, Repr

/-- RDSExporter: the exporter record; `region` stands for
`*sess.Config.Region` (the only part of the session `Collect` reads),
followed by the nine descriptor fields of the Go struct. -/
structure RDSExporter where
  region : String
  AllocatedStorage : Desc
  DBInstanceClass : Desc
  DBInstanceStatus : Desc
  EngineVersion : Desc
  LatestRestorableTime : Desc
  MaxConnections : Desc
  MaxConnectionsMappingError : Desc
  PubliclyAccessible : Desc
  StorageEncrypted : Desc
deriving DecidableEq, Repr

/-- NewRDSExporter: builds the exporter with the nine descriptors of
`rds.go` (help strings and variable label names as in the source). -/
def NewRDSExporter (region : String) : RDSExporter :=
  { region := region
    AllocatedStorage :=
      { metric := MetricName.allocatedStorage
        help := "The amount of allocated storage in bytes."
        variableLabels := ["aws_region", "dbinstance_identifier"] }
    DBInstanceClass :=
      { metric := MetricName.dbInstanceClass
        help := "The DB instance class (type)."
        variableLabels := ["aws_region", "dbinstance_identifier", "instance_class"] }
    DBInstanceStatus :=
      { metric := MetricName.dbInstanceStatus
        help := "The instance status."
        variableLabels := ["aws_region", "dbinstance_identifier", "instance_status"] }
    EngineVersion :=
      { metric := MetricName.engineVersion
        help := "The DB engine type and version."
        variableLabels := ["aws_region", "dbinstance_identifier", "engine", "engine_version"] }
    LatestRestorableTime :=
      { metric := MetricName.latestRestorableTime
        help := "Latest restorable time (UTC date timestamp)."
        variableLabels := ["aws_region", "dbinstance_identifier"] }
    MaxConnections :=
      { metric := MetricName.maxConnections
        help := "The DB's max_connections value"
        variableLabels := ["aws_region", "dbinstance_identifier"] }
    MaxConnectionsMappingError :=
      { metric := MetricName.maxConnectionsMappingError
        help := "Indicates no mapping found for instance/parameter group."
        variableLabels := ["aws_region", "dbinstance_identifier", "instance_class"] }
    PubliclyAccessible :=
      { metric := MetricName.publiclyAccessible
        help := "Indicates if the DB is publicly accessible"
        variableLabels := ["aws_region", "dbinstance_identifier"] }
    StorageEncrypted :=
      { metric := MetricName.storageEncrypted
        help := "Indicates if the DB storage is encrypted"
        variableLabels := ["aws_region", "dbinstance_identifier"] } }

/-- Describe: sends the nine descriptors to the channel, in source
order; the exporter state is threaded through and returned. -/
def RDSExporter.Describe (e : RDSExporter) : List Desc × RDSExporter :=
  ( [ e.AllocatedStorage, e.DBInstanceClass, e.DBInstanceStatus, e.EngineVersion,
      e.LatestRestorableTime, e.MaxConnections, e.MaxConnectionsMappingError,
      e.PubliclyAccessible, e.StorageEncrypted ],
    e )

/-- Collect: one poll; the exporter record and the table are threaded
through and returned (the source contains no assignment to either). -/
def RDSExporter.Collect (e : RDSExporter) (tbl : ConnTable) (script : List ApiResponse) :
    CollectRun × RDSExporter × ConnTable :=
  (collectRun tbl e.region script, e, tbl)

/-- contOk: a continuing page of the response script: its instances and
the non-nil marker the call returns. -/
def contOk (pm : List DBInstance × String) : ApiResponse :=
  ApiResponse.ok pm.1 (some pm.2)

/-- inst150: a concrete instance of class "db.t2.small" whose first
parameter group is "default" (table entry 150). -/
def inst150 : DBInstance :=
  { dbInstanceIdentifier := "db-one"
    dbInstanceClass := "db.t2.small"
    allocatedStorage := 20
    storageEncrypted := true
    publiclyAccessible := false
    dbInstanceStatus := "available"
    engine := "mysql"
    engineVersion := "5.7.23"
    latestRestorableTimeUnix := 1600000000
    dbParameterGroups := [⟨"default"⟩] }

/-- instUnknown: a concrete instance whose class is absent from the
table, with a nonempty parameter-group list. -/
def instUnknown : DBInstance :=
  { dbInstanceIdentifier := "db-two"
    dbInstanceClass := "db.unknown.type"
    allocatedStorage := 100
    storageEncrypted := false
    publiclyAccessible := true
    dbInstanceStatus := "available"
    engine := "postgres"
    engineVersion := "10.6"
    latestRestorableTimeUnix := 1600000001
    dbParameterGroups := [⟨"default.postgres10"⟩] }

/-- instUnknownNoGroups: a concrete instance whose class is absent from
the table and whose parameter-group list is empty. -/
def instUnknownNoGroups : DBInstance :=
  { dbInstanceIdentifier := "db-three"
    dbInstanceClass := "db.unknown.type"
    allocatedStorage := 30
    storageEncrypted := false
    publiclyAccessible := false
    dbInstanceStatus := "creating"
    engine := "postgres"
    engineVersion := "11.2"
    latestRestorableTimeUnix := 1600000002
    dbParameterGroups := [] }

/-- instKnownNoGroups: a concrete instance whose class IS a key of the
table but whose parameter-group list is empty. -/
def instKnownNoGroups : DBInstance :=
  { dbInstanceIdentifier := "db-four"
    dbInstanceClass := "db.t2.small"
    allocatedStorage := 40
    storageEncrypted := true
    publiclyAccessible := false
    dbInstanceStatus := "available"
    engine := "mysql"
    engineVersion := "5.7.23"
    latestRestorableTimeUnix := 1600000003
    dbParameterGroups := [] }

/-- inst65536: a concrete instance with 65536 GiB of allocated storage. -/
def inst65536 : DBInstance :=
  { dbInstanceIdentifier := "db-five"
    dbInstanceClass := "db.unknown.type"
    allocatedStorage := 65536
    storageEncrypted := true
    publiclyAccessible := false
    dbInstanceStatus := "available"
    engine := "postgres"
    engineVersion := "11.2"
    latestRestorableTimeUnix := 1600000004
    dbParameterGroups := [⟨"default"⟩] }

/-- instOverflow: a concrete instance whose allocated storage is 2^33
GiB, an int64 value whose byte conversion overflows int64. -/
def instOverflow : DBInstance :=
  { dbInstanceIdentifier := "db-six"
    dbInstanceClass := "db.unknown.type"
    allocatedStorage := 8589934592
    storageEncrypted := false
    publiclyAccessible := false
    dbInstanceStatus := "available"
    engine := "postgres"
    engineVersion := "11.2"
    latestRestorableTimeUnix := 1600000005
    dbParameterGroups := [⟨"default"⟩] }

/-- describeLoop, run on any number of continuing pages followed by a
failing call: the markers passed are nil then each page's returned
marker, the error counter is incremented once, and the fetch fails. -/
theorem describeLoop_pages_err (m : Option String)
    (pages : List (List DBInstance × String)) (rest : List ApiResponse) :
    describeLoop m (pages.map contOk ++ ApiResponse.err :: rest) =
      (m :: pages.map (fun pm => some pm.2), 1, FetchResult.failure) := by
  induction pages generalizing m with
  | nil => rfl
  | cons p ps ih =>
      simp only [List.map_cons, List.cons_append, contOk, describeLoop,
        List.append_eq, ih]

/-- describeLoop, run on any number of continuing pages followed by a
final page with nil marker: the markers passed are nil then each page's
returned marker, no errors, and all pages' instances are accumulated in
order. -/
theorem describeLoop_pages_done (m : Option String)
    (pages : List (List DBInstance × String)) (pf : List DBInstance)
    (rest : List ApiResponse) :
    describeLoop m (pages.map contOk ++ ApiResponse.ok pf none :: rest) =
      (m :: pages.map (fun pm => some pm.2), 0,
        FetchResult.success ((pages.map Prod.fst).flatten ++ pf)) := by
  induction pages generalizing m with
  | nil => rfl
  | cons p ps ih =>
      simp only [List.map_cons, List.cons_append, contOk, describeLoop,
        List.append_eq, ih, List.flatten_cons, List.append_assoc]

/-- processInstance, when it returns (does not panic), emits the
mapping-error gauge followed by the eight common metrics, with the
(error, max-connections) pair determined by the two-level lookup on the
first parameter group. -/
theorem processInstance_shape (tbl : ConnTable) (region : String)
    (inst : DBInstance) (ms : List Metric)
    (h : processInstance tbl region inst = some ms) :
    ∃ e v, ms = mappingErrorMetric region inst e :: instanceCommonMetrics region inst v ∧
      ((e = 0 ∧ lookupFirstGroup tbl inst = some v) ∨
       (e = 1 ∧ v = 0 ∧ lookupFirstGroup tbl inst = none)) := by
  unfold processInstance at h
  split at h
  next hc =>
      refine ⟨1, 0, (Option.some_inj.mp h).symm, Or.inr ⟨rfl, rfl, ?_⟩⟩
      cases hg : inst.dbParameterGroups <;> simp [lookupFirstGroup, hg, hc]
  next gt hc =>
      split at h
      next hg => exact absurd h (by simp)
      next g tail hg =>
          split at h
          next v hl =>
              refine ⟨0, v, (Option.some_inj.mp h).symm, Or.inl ⟨rfl, ?_⟩⟩
              simp [lookupFirstGroup, hg, hc, hl]
          next hl =>
              refine ⟨1, 0, (Option.some_inj.mp h).symm, Or.inr ⟨rfl, rfl, ?_⟩⟩
              simp [lookupFirstGroup, hg, hc, hl]

/-- int64wrap is the identity on the representable range of int64. -/
theorem int64wrap_eq_self (x : Int)
    (h1 : -9223372036854775808 ≤ x) (h2 : x < 9223372036854775808) :
    int64wrap x = x := by
  unfold int64wrap
  rw [Int.emod_eq_of_lt (by linarith) (by linarith)]
  ring

/-- C1: for every instance processed in a successful poll, Collect emits
exactly one rds_maxconnections and exactly one rds_maxconnections_error
observation, regardless of lookup outcome: when the (class, first
parameter group name) pair is in the table the error value is 0 and the
max-connections value is the table's entry; on a miss at either level
the error value is 1 and the max-connections value is 0. -/
theorem C1_maxconnections_pair_per_instance (region : String)
    (inst : DBInstance) (ms : List Metric)
    (h : processInstance DBMaxConnections region inst = some ms) :
    metricValuesFor MetricName.maxConnectionsMappingError ms =
      [if (lookupFirstGroup DBMaxConnections inst).isSome then 0 else 1] ∧
    metricValuesFor MetricName.maxConnections ms =
      [(lookupFirstGroup DBMaxConnections inst).getD 0] := by
  obtain ⟨e, v, rfl, hcase⟩ := processInstance_shape _ _ _ _ h
  rcases hcase with ⟨he, hlf⟩ | ⟨he, hv, hlf⟩
  · subst he; rw [hlf]; exact ⟨rfl, rfl⟩
  · subst he; subst hv; rw [hlf]; exact ⟨rfl, rfl⟩

/-- C1 witness: class "db.t2.small" with first parameter group "default"
yields max-connections 150 and mapping error 0. -/
theorem C1_maxconnections_pair_witness :
    metricValuesFor MetricName.maxConnectionsMappingError
        ((processInstance DBMaxConnections "us-east-1" inst150).getD []) = [0] ∧
    metricValuesFor MetricName.maxConnections
        ((processInstance DBMaxConnections "us-east-1" inst150).getD []) = [150] := by
  have hc := C1_maxconnections_pair_per_instance "us-east-1" inst150
      ((processInstance DBMaxConnections "us-east-1" inst150).getD []) rfl
  exact ⟨hc.1.trans (by decide), hc.2.trans (by decide)⟩

/-- C2: if any DescribeDBInstances call during a poll returns an error
(after any number of successfully continuing pages), Collect emits zero
observations for that poll, increments the error counter by exactly 1,
and returns (outcome `aborted`, not a panic or a propagated error). -/
theorem C2_api_error_aborts_poll (tbl : ConnTable) (region : String)
    (pages : List (List DBInstance × String)) (rest : List ApiResponse) :
    collectRun tbl region (pages.map contOk ++ ApiResponse.err :: rest) =
      { requests := pages.length + 1
        errors := 1
        callMarkers := none :: pages.map (fun pm => some pm.2)
        outcome := CollectOutcome.aborted } ∧
    emittedMetrics
      (collectRun tbl region (pages.map contOk ++ ApiResponse.err :: rest)) = [] := by
  have hd := describeLoop_pages_err none pages rest
  constructor
  · simp [collectRun, hd]
  · simp [emittedMetrics, collectRun, hd]

/-- C3: Collect calls the list API repeatedly, passing forward the
marker returned by the previous call (nil first), accumulates all pages
in API order, stops exactly when a call returns a nil marker, and
increments the request counter once per call; emission happens only
after the full aggregate is built.  In particular, for a two-page poll
exactly two calls are issued and both pages are aggregated before any
observation is emitted. -/
theorem C3_pagination_markers_and_aggregation (tbl : ConnTable) (region : String)
    (pages : List (List DBInstance × String)) (pf : List DBInstance)
    (rest : List ApiResponse) :
    collectRun tbl region (pages.map contOk ++ ApiResponse.ok pf none :: rest) =
      { requests := pages.length + 1
        errors := 0
        callMarkers := none :: pages.map (fun pm => some pm.2)
        outcome := emitOutcome tbl region ((pages.map Prod.fst).flatten ++ pf) } ∧
    ∀ p1 mk p2,
      collectRun tbl region [ApiResponse.ok p1 (some mk), ApiResponse.ok p2 none] =
        { requests := 2
          errors := 0
          callMarkers := [none, some mk]
          outcome := emitOutcome tbl region (p1 ++ p2) } := by
  constructor
  · have hd := describeLoop_pages_done none pages pf rest
    simp [collectRun, hd]
  · intro p1 mk p2
    simp [collectRun, describeLoop]

/-- C4 counterexample: an instance with zero parameter groups whose
class is absent from the table is processed without any out-of-bounds
access (the unchecked index sits inside the class-hit branch only), so
the claim "every instance with zero parameter groups causes an
out-of-bounds access" is false. -/
theorem C4_counterexample_no_oob_for_unknown_class :
    instUnknownNoGroups.dbParameterGroups = [] ∧
    processInstance DBMaxConnections "us-east-1" instUnknownNoGroups ≠ none :=
  ⟨rfl, by decide⟩

/-- C4 (amended): for every instance with zero parameter groups whose
class IS a key of the connection-limit table, the lookup performs the
out-of-bounds access on the parameter-group list (modelled as
`processInstance` returning `none`). -/
theorem C4_oob_when_class_known (region : String) (inst : DBInstance)
    (h1 : inst.dbParameterGroups = [])
    (h2 : (List.lookup inst.dbInstanceClass DBMaxConnections).isSome = true) :
    processInstance DBMaxConnections region inst = none := by
  unfold processInstance
  cases hc : List.lookup inst.dbInstanceClass DBMaxConnections with
  | none => rw [hc] at h2; simp at h2
  | some gt => simp [h1]

/-- C4 witness: class "db.t2.small" (a table key) with an empty
parameter-group list hits the out-of-bounds access. -/
theorem C4_oob_witness :
    instKnownNoGroups.dbParameterGroups = [] ∧
    (List.lookup instKnownNoGroups.dbInstanceClass DBMaxConnections).isSome = true ∧
    processInstance DBMaxConnections "us-east-1" instKnownNoGroups = none :=
  ⟨rfl, by decide,
    C4_oob_when_class_known "us-east-1" instKnownNoGroups rfl (by decide)⟩

/-- C5: for every instance whose class is absent from the table, Collect
emits mapping error 1 and max-connections 0, and the result does not
consult the parameter-group list at all (the output is unchanged under
any replacement of that list, including the empty one). -/
theorem C5_unknown_class_ignores_groups (region : String) (inst : DBInstance)
    (h : List.lookup inst.dbInstanceClass DBMaxConnections = none) :
    processInstance DBMaxConnections region inst =
      some (mappingErrorMetric region inst 1 :: instanceCommonMetrics region inst 0) ∧
    metricValuesFor MetricName.maxConnectionsMappingError
      (mappingErrorMetric region inst 1 :: instanceCommonMetrics region inst 0) = [1] ∧
    metricValuesFor MetricName.maxConnections
      (mappingErrorMetric region inst 1 :: instanceCommonMetrics region inst 0) = [0] ∧
    ∀ gs, processInstance DBMaxConnections region { inst with dbParameterGroups := gs } =
      processInstance DBMaxConnections region inst := by
  refine ⟨?_, rfl, rfl, ?_⟩
  · unfold processInstance
    rw [h]
  · intro gs
    simp [processInstance, h, mappingErrorMetric, instanceCommonMetrics]

/-- C5 witness: class "db.unknown.type" yields mapping error 1 and
max-connections 0 regardless of parameter group. -/
theorem C5_unknown_class_witness :
    List.lookup instUnknown.dbInstanceClass DBMaxConnections = none ∧
    processInstance DBMaxConnections "us-east-1" instUnknown =
      some (mappingErrorMetric "us-east-1" instUnknown 1 ::
        instanceCommonMetrics "us-east-1" instUnknown 0) ∧
    metricValuesFor MetricName.maxConnectionsMappingError
      (mappingErrorMetric "us-east-1" instUnknown 1 ::
        instanceCommonMetrics "us-east-1" instUnknown 0) = [1] ∧
    metricValuesFor MetricName.maxConnections
      (mappingErrorMetric "us-east-1" instUnknown 1 ::
        instanceCommonMetrics "us-east-1" instUnknown 0) = [0] := by
  have hc := C5_unknown_class_ignores_groups "us-east-1" instUnknown (by decide)
  exact ⟨by decide, hc.1, hc.2.1, hc.2.2.1⟩

/-- C6 counterexample: at 2^33 GiB the int64 multiplication
`AllocatedStorage*1024*1024*1024` wraps, so the emitted value is
-2^63, not 2^33 × 1073741824; the claim as stated (every instance,
exactly) is false. -/
theorem C6_allocatedstorage_overflow :
    metricValuesFor MetricName.allocatedStorage
        ((processInstance DBMaxConnections "us-east-1" instOverflow).getD []) =
      [-9223372036854775808] ∧
    (-9223372036854775808 : Int) ≠ instOverflow.allocatedStorage * 1073741824 := by
  exact ⟨by decide, by decide⟩

/-- C6 (amended): for every instance whose GiB value times 1073741824
lies in the signed 64-bit range, the rds_allocatedstorage observation
value equals the GiB value multiplied by 1,073,741,824 exactly
(including 0 and 65536 GiB); outside that range the emitted value is the
product wrapped to 64 bits. -/
theorem C6_allocatedstorage_exact (region : String) (inst : DBInstance)
    (ms : List Metric)
    (h : processInstance DBMaxConnections region inst = some ms)
    (h1 : -9223372036854775808 ≤ inst.allocatedStorage * 1073741824)
    (h2 : inst.allocatedStorage * 1073741824 < 9223372036854775808) :
    metricValuesFor MetricName.allocatedStorage ms =
      [inst.allocatedStorage * 1073741824] := by
  obtain ⟨e, v, rfl, -⟩ := processInstance_shape _ _ _ _ h
  show [int64wrap (inst.allocatedStorage * 1024 * 1024 * 1024)] = _
  rw [show inst.allocatedStorage * 1024 * 1024 * 1024 =
        inst.allocatedStorage * 1073741824 by ring,
      int64wrap_eq_self _ h1 h2]

/-- C6 witness: 65536 GiB yields exactly 70,368,744,177,664. -/
theorem C6_allocatedstorage_witness :
    metricValuesFor MetricName.allocatedStorage
        ((processInstance DBMaxConnections "us-east-1" inst65536).getD []) =
      [70368744177664] := by
  have hc := C6_allocatedstorage_exact "us-east-1" inst65536
      ((processInstance DBMaxConnections "us-east-1" inst65536).getD [])
      rfl (by decide) (by decide)
  exact hc.trans (by decide)

/-- C7: for every instance, Collect emits exactly one
rds_publiclyaccessible and exactly one rds_storageencrypted observation,
each 1 when the corresponding boolean flag is true and 0 when false. -/
theorem C7_flag_gauges (region : String) (inst : DBInstance) (ms : List Metric)
    (h : processInstance DBMaxConnections region inst = some ms) :
    metricValuesFor MetricName.publiclyAccessible ms =
      [if inst.publiclyAccessible then 1 else 0] ∧
    metricValuesFor MetricName.storageEncrypted ms =
      [if inst.storageEncrypted then 1 else 0] := by
  obtain ⟨e, v, rfl, -⟩ := processInstance_shape _ _ _ _ h
  exact ⟨rfl, rfl⟩

/-- C7 witness: a publicly accessible, unencrypted instance yields
observations 1 and 0 respectively. -/
theorem C7_flag_gauges_witness :
    metricValuesFor MetricName.publiclyAccessible
        ((processInstance DBMaxConnections "us-east-1" instUnknown).getD []) = [1] ∧
    metricValuesFor MetricName.storageEncrypted
        ((processInstance DBMaxConnections "us-east-1" instUnknown).getD []) = [0] := by
  have hc := C7_flag_gauges "us-east-1" instUnknown
      ((processInstance DBMaxConnections "us-east-1" instUnknown).getD []) rfl
  exact ⟨hc.1.trans (by decide), hc.2.trans (by decide)⟩

/-- C8: for every instance, the rds_dbinstancestatus, rds_engineversion
and rds_dbinstanceclass observations each have value exactly 1, with the
status string, engine name plus engine version, and instance class
respectively carried only as labels. -/
theorem C8_unit_gauges_with_labels (region : String) (inst : DBInstance)
    (ms : List Metric)
    (h : processInstance DBMaxConnections region inst = some ms) :
    (ms.filter (fun m => m.name == MetricName.dbInstanceStatus)).map
        (fun m => (m.value, m.labelValues)) =
      [(1, [region, inst.dbInstanceIdentifier, inst.dbInstanceStatus])] ∧
    (ms.filter (fun m => m.name == MetricName.engineVersion)).map
        (fun m => (m.value, m.labelValues)) =
      [(1, [region, inst.dbInstanceIdentifier, inst.engine, inst.engineVersion])] ∧
    (ms.filter (fun m => m.name == MetricName.dbInstanceClass)).map
        (fun m => (m.value, m.labelValues)) =
      [(1, [region, inst.dbInstanceIdentifier, inst.dbInstanceClass])] := by
  obtain ⟨e, v, rfl, -⟩ := processInstance_shape _ _ _ _ h
  exact ⟨rfl, rfl, rfl⟩

/-- C8 witness: the three unit gauges of a concrete instance carry its
status, engine/version and class as labels, each with value 1. -/
theorem C8_unit_gauges_witness :
    (((processInstance DBMaxConnections "us-east-1" inst150).getD []).filter
        (fun m => m.name == MetricName.dbInstanceStatus)).map
        (fun m => (m.value, m.labelValues)) =
      [(1, ["us-east-1", "db-one", "available"])] ∧
    (((processInstance DBMaxConnections "us-east-1" inst150).getD []).filter
        (fun m => m.name == MetricName.engineVersion)).map
        (fun m => (m.value, m.labelValues)) =
      [(1, ["us-east-1", "db-one", "mysql", "5.7.23"])] ∧
    (((processInstance DBMaxConnections "us-east-1" inst150).getD []).filter
        (fun m => m.name == MetricName.dbInstanceClass)).map
        (fun m => (m.value, m.labelValues)) =
      [(1, ["us-east-1", "db-one", "db.t2.small"])] := by
  have hc := C8_unit_gauges_with_labels "us-east-1" inst150
      ((processInstance DBMaxConnections "us-east-1" inst150).getD []) rfl
  exact ⟨hc.1.trans (by decide), hc.2.1.trans (by decide), hc.2.2.trans (by decide)⟩

/-- C9: for every instance, the rds_latestrestorabletime observation is
emitted with the counter metric kind and its value equals the Unix-epoch
seconds of the instance's latest-restorable-time timestamp. -/
theorem C9_latestrestorabletime_counter (region : String) (inst : DBInstance)
    (ms : List Metric)
    (h : processInstance DBMaxConnections region inst = some ms) :
    (ms.filter (fun m => m.name == MetricName.latestRestorableTime)).map
        (fun m => (m.valueType, m.value)) =
      [(ValueType.counterValue, inst.latestRestorableTimeUnix)] := by
  obtain ⟨e, v, rfl, -⟩ := processInstance_shape _ _ _ _ h
  rfl

/-- C9 witness: a concrete instance's latest-restorable-time observation
is a CounterValue holding its Unix timestamp. -/
theorem C9_latestrestorabletime_witness :
    (((processInstance DBMaxConnections "us-east-1" inst150).getD []).filter
        (fun m => m.name == MetricName.latestRestorableTime)).map
        (fun m => (m.valueType, m.value)) =
      [(ValueType.counterValue, 1600000000)] := by
  have hc := C9_latestrestorabletime_counter "us-east-1" inst150
      ((processInstance DBMaxConnections "us-east-1" inst150).getD []) rfl
  exact hc.trans (by decide)

/-- C10: neither Describe nor Collect mutates the connection-limit table
or any field of the exporter: the threaded state returned by either call
is identical to the state passed in (the source contains no assignment
to them; in this pure embedding the equality is definitional). -/
theorem C10_no_mutation (e : RDSExporter) (tbl : ConnTable)
    (script : List ApiResponse) :
    (RDSExporter.Describe e).2 = e ∧
    (RDSExporter.Collect e tbl script).2.1 = e ∧
    (RDSExporter.Collect e tbl script).2.2 = tbl ∧
    (RDSExporter.Collect e DBMaxConnections script).2.2 = DBMaxConnections :=
  ⟨rfl, rfl, rfl, rfl⟩
